import Mathlib

/-
Shallow embedding of the booking availability engine, booking lifecycle
manager, campaign orchestrator and settlement calculator of the
billboard_be repository (src/services: booking, campaign, purchase-order
services), together with theorems settling the frozen claims about them.

Modelling conventions:
* uuid columns become `Nat` identifiers;
* calendar `date` columns become `Nat` day indices (the source stores
  ISO `YYYY-MM-DD` strings whose SQL date order and `new Date` order
  coincide with the numeric order of day indices, and the millisecond
  difference of two such dates is an exact multiple of one day, so the
  source's `Math.ceil((end - start) / day) + 1` is `end - start + 1`);
* decimal columns (`rate_per_day`, `notional_value`, ...) become `ℚ`;
* `status` columns are plain `String`s, exactly as the varchar columns
  and string comparisons of the source (the schema enforces no enum);
* a thrown `Error` becomes `Except.error` carrying the structured data
  of the message; mutating operations return the resulting store next
  to the `Except`, so that a call that throws before its first insert
  returns the store unchanged, exactly as the sequential await chain of
  the source does;
* the sequence generator is an external collaborator: fresh ids and
  reference codes are parameters of the operations that consume them.
-/

namespace BillboardOps

inductive BillboardType
  | static
  | digital
deriving DecidableEq

/-- Row of the `billboards` table (the columns the engine reads). -/
structure Billboard where
  id : Nat
  name : String
  type : BillboardType
  ratePerDay : ℚ
  slotCount : Option Nat
deriving DecidableEq

/-- Row of the `bookings` table (the columns the engine reads/writes). -/
structure Booking where
  id : Nat
  referenceCode : String
  customerId : Nat
  campaignId : Option Nat
  billboardId : Nat
  slotNumber : Option Nat
  startDate : Nat
  endDate : Nat
  actualEndDate : Option Nat
  notionalValue : ℚ
  status : String
  creativeRef : Option String
  notes : Option String
deriving DecidableEq

/-- Row of the `campaigns` table. -/
structure Campaign where
  id : Nat
  referenceCode : String
  name : String
  customerId : Nat
  description : Option String
  totalValue : ℚ
  startDate : Option Nat
  endDate : Option Nat
deriving DecidableEq

/-- Row of the `purchase_orders` table. -/
structure PurchaseOrder where
  id : Nat
  poNumber : String
  bookingId : Nat
  actualStartDate : Nat
  actualEndDate : Nat
  actualValue : ℚ
  adjustmentNotes : Option String
deriving DecidableEq

/-- The relational store the services read and write. -/
structure Store where
  billboards : List Billboard
  bookings : List Booking
  campaigns : List Campaign
  purchaseOrders : List PurchaseOrder
deriving DecidableEq

/-- Structured form of the `Error`s thrown by the embedded services. -/
inductive ServiceError
  | billboardNotFound
  | bookingNotFound
  | bookingConflict (refCodes : List String)
  | bookingFinalized (status : String)
  | onlyCreatedDeletable
  | invalidStatus (status : String)
  | shortCloseInvalidStatus (status : String)
  | shortCloseAfterEnd
  | shortCloseBeforeStart
  | campaignNoBillboards
  | campaignBillboardsMissing
  | campaignUnavailable (billboardName : Option String) (refCodes : List String)
  | poExists
  | poInvalidBookingStatus (status : String)
deriving DecidableEq

/-- The `AvailabilityQuery` of booking.service.ts; `none` stands for an
omitted (`undefined`) optional argument. -/
structure AvailabilityQuery where
  billboardId : Nat
  startDate : Nat
  endDate : Nat
  slotNumber : Option Nat
  excludeBookingId : Option Nat
deriving DecidableEq

/-- Return shape of `checkAvailability`. -/
structure AvailabilityResult where
  available : Bool
  conflicts : List Booking
deriving DecidableEq

/-- Condition pushed only when `excludeBookingId` is supplied:
`bookings.id != excludeBookingId`. -/
def notExcluded (excl : Option Nat) (b : Booking) : Bool :=
  match excl with
  | none => true
  | some x => b.id != x

/-- Condition pushed only for a digital billboard with a slot number:
`eq(bookings.slotNumber, slotNumber)`; SQL equality never matches a
NULL `slot_number`, hence the comparison with `some k`. -/
def slotCondition (t : BillboardType) (slot : Option Nat) (b : Booking) : Bool :=
  match t, slot with
  | BillboardType.digital, some k => b.slotNumber == some k
  | _, _ => true

/-- The conjunction of conditions of the conflict query of
`checkAvailability`: same billboard, inclusive overlap
(`existing.start <= query.end AND existing.end >= query.start`),
not the excluded booking, and the slot condition. -/
def availMatches (bb : Billboard) (q : AvailabilityQuery) (b : Booking) : Bool :=
  (b.billboardId == q.billboardId) &&
  (decide (b.startDate ≤ q.endDate)) &&
  (decide (q.startDate ≤ b.endDate)) &&
  notExcluded q.excludeBookingId b &&
  slotCondition bb.type q.slotNumber b

/-- Embedding of `BookingService.checkAvailability` (landlord.service.ts lines
771-818): resolves the billboard (`Billboard not found` otherwise),
collects the conflicting bookings, and reports
`available = (conflicts.length === 0)`. It is a pure read. -/
def checkAvailability (st : Store) (q : AvailabilityQuery) :
    Except ServiceError AvailabilityResult :=
  match st.billboards.find? (fun bb => bb.id == q.billboardId) with
  | none => Except.error ServiceError.billboardNotFound
  | some bb =>
    let conflicts := st.bookings.filter (availMatches bb q)
    Except.ok ⟨conflicts.length == 0, conflicts⟩

theorem notExcluded_true_iff (excl : Option Nat) (b : Booking) :
    notExcluded excl b = true ↔ some b.id ≠ excl := by
  cases excl with
  | none => simp [notExcluded]
  | some x =>
    simp only [notExcluded, bne_iff_ne, ne_eq, Option.some.injEq]

theorem slotCondition_static (bb : Billboard) (slot : Option Nat) (b : Booking)
    (h : bb.type = BillboardType.static) : slotCondition bb.type slot b = true := by
  rw [h]
  cases slot <;> rfl

theorem slotCondition_none (t : BillboardType) (b : Booking) :
    slotCondition t none b = true := by
  cases t <;> rfl

theorem slotCondition_digital_some (bb : Billboard) (k : Nat) (b : Booking)
    (h : bb.type = BillboardType.digital) :
    slotCondition bb.type (some k) b = (b.slotNumber == some k) := by
  rw [h]
  rfl

/-- The base (slot-independent) part of the conflict predicate, in
propositional form. -/
def overlapBase (q : AvailabilityQuery) (b : Booking) : Prop :=
  b.billboardId = q.billboardId ∧ some b.id ≠ q.excludeBookingId ∧
    q.startDate ≤ b.endDate ∧ q.endDate ≥ b.startDate

instance (q : AvailabilityQuery) (b : Booking) : Decidable (overlapBase q b) := by
  unfold overlapBase
  infer_instance

theorem availMatches_iff (bb : Billboard) (q : AvailabilityQuery) (b : Booking) :
    availMatches bb q b = true ↔
      (overlapBase q b ∧ slotCondition bb.type q.slotNumber b = true) := by
  simp only [availMatches, Bool.and_eq_true, decide_eq_true_eq, beq_iff_eq,
    notExcluded_true_iff, overlapBase, ge_iff_le]
  try tauto

/-- Splitting `checkAvailability` at a resolved billboard: the result is
ok, its conflicts are exactly the stored bookings satisfying the
conflict predicate, and it reports unavailable exactly when one exists. -/
theorem checkAvailability_characterization (st : Store) (q : AvailabilityQuery)
    (bb : Billboard)
    (hfind : st.billboards.find? (fun x => x.id == q.billboardId) = some bb) :
    ∃ r, checkAvailability st q = Except.ok r ∧
      (∀ b, b ∈ r.conflicts ↔ (b ∈ st.bookings ∧ availMatches bb q b = true)) ∧
      (r.available = false ↔ ∃ b ∈ st.bookings, availMatches bb q b = true) := by
  refine ⟨⟨(st.bookings.filter (availMatches bb q)).length == 0,
      st.bookings.filter (availMatches bb q)⟩, ?_, ?_, ?_⟩
  · unfold checkAvailability
    rw [hfind]
  · intro b
    exact List.mem_filter
  · simp only [beq_eq_false_iff_ne, ne_eq, List.length_eq_zero]
    constructor
    · intro h
      obtain ⟨b, hb⟩ := List.exists_mem_of_ne_nil _ h
      have := List.mem_filter.mp hb
      exact ⟨b, this.1, this.2⟩
    · rintro ⟨b, hb, hm⟩ hnil
      have : b ∈ st.bookings.filter (availMatches bb q) := List.mem_filter.mpr ⟨hb, hm⟩
      rw [hnil] at this
      exact (List.not_mem_nil b) this

/-- The six booking statuses accepted by `updateBookingStatus`
(landlord.service.ts lines 1007-1011). -/
def validStatuses : List String :=
  ["created", "confirmed", "active", "completed", "po_generated", "invoiced"]

/-- Claim C1: for every existing billboard of type static and every
candidate range, `checkAvailability` reports `available = false`, with
the conflicts list holding exactly the overlapping bookings, if and
only if some non-excluded booking `[s', e']` on that billboard
satisfies `s ≤ e'` and `e ≥ s'` (inclusive overlap), regardless of the
booking's slot number. -/
theorem checkAvailability_static_overlap (st : Store) (q : AvailabilityQuery)
    (bb : Billboard)
    (hfind : st.billboards.find? (fun x => x.id == q.billboardId) = some bb)
    (htype : bb.type = BillboardType.static) :
    ∃ r, checkAvailability st q = Except.ok r ∧
      (r.available = false ↔ ∃ b ∈ st.bookings, overlapBase q b) ∧
      (∀ b, b ∈ r.conflicts ↔ (b ∈ st.bookings ∧ overlapBase q b)) := by
  obtain ⟨r, hok, hmem, hav⟩ := checkAvailability_characterization st q bb hfind
  have hiff : ∀ b : Booking, availMatches bb q b = true ↔ overlapBase q b := by
    intro b
    rw [availMatches_iff]
    have hs := slotCondition_static bb q.slotNumber b htype
    simp [hs]
  refine ⟨r, hok, ?_, ?_⟩
  · rw [hav]
    exact ⟨fun ⟨b, hb, hm⟩ => ⟨b, hb, (hiff b).mp hm⟩,
      fun ⟨b, hb, hm⟩ => ⟨b, hb, (hiff b).mpr hm⟩⟩
  · intro b
    rw [hmem b, hiff b]

def wBillboardS : Billboard := ⟨1, "Static One", BillboardType.static, 500, none⟩

def wBookingS : Booking :=
  ⟨21, "BK-2024-0001", 3, none, 1, some 2, 100, 110, none, 5500, "confirmed", none, none⟩

def wStoreS : Store := ⟨[wBillboardS], [wBookingS], [], []⟩

/-- A candidate range touching the stored booking's end date on the
same day (so the claim requires a conflict). -/
def wQueryS : AvailabilityQuery := ⟨1, 110, 120, none, none⟩

theorem checkAvailability_static_overlap_witness :
    ∃ r, checkAvailability wStoreS wQueryS = Except.ok r ∧
      (r.available = false ↔ ∃ b ∈ wStoreS.bookings, overlapBase wQueryS b) ∧
      (∀ b, b ∈ r.conflicts ↔ (b ∈ wStoreS.bookings ∧ overlapBase wQueryS b)) :=
  checkAvailability_static_overlap wStoreS wQueryS wBillboardS rfl rfl

/-- Claim C2: for a digital billboard, when a slot number is given the
conflicts are exactly the overlapping bookings carrying the same slot
number (overlapping bookings on other slots leave the result
available); when the slot number is omitted every overlapping booking
on the billboard counts, regardless of its slot. -/
theorem checkAvailability_digital_slot_scope (st : Store) (q : AvailabilityQuery)
    (bb : Billboard)
    (hfind : st.billboards.find? (fun x => x.id == q.billboardId) = some bb)
    (htype : bb.type = BillboardType.digital) :
    ∃ r, checkAvailability st q = Except.ok r ∧
      (∀ k, q.slotNumber = some k →
        (∀ b, b ∈ r.conflicts ↔
            (b ∈ st.bookings ∧ overlapBase q b ∧ b.slotNumber = some k)) ∧
        (r.available = false ↔
            ∃ b ∈ st.bookings, overlapBase q b ∧ b.slotNumber = some k)) ∧
      (q.slotNumber = none →
        (∀ b, b ∈ r.conflicts ↔ (b ∈ st.bookings ∧ overlapBase q b)) ∧
        (r.available = false ↔ ∃ b ∈ st.bookings, overlapBase q b)) := by
  obtain ⟨r, hok, hmem, hav⟩ := checkAvailability_characterization st q bb hfind
  refine ⟨r, hok, ?_, ?_⟩
  · intro k hk
    have hiff : ∀ b : Booking,
        availMatches bb q b = true ↔ (overlapBase q b ∧ b.slotNumber = some k) := by
      intro b
      rw [availMatches_iff, hk, slotCondition_digital_some bb k b htype]
      simp only [beq_iff_eq]
    constructor
    · intro b
      rw [hmem b, hiff b]
    · rw [hav]
      exact ⟨fun ⟨b, hb, hm⟩ => ⟨b, hb, (hiff b).mp hm⟩,
        fun ⟨b, hb, hm⟩ => ⟨b, hb, (hiff b).mpr hm⟩⟩
  · intro hk
    have hiff : ∀ b : Booking, availMatches bb q b = true ↔ overlapBase q b := by
      intro b
      rw [availMatches_iff, hk]
      simp [slotCondition_none]
    constructor
    · intro b
      rw [hmem b, hiff b]
    · rw [hav]
      exact ⟨fun ⟨b, hb, hm⟩ => ⟨b, hb, (hiff b).mp hm⟩,
        fun ⟨b, hb, hm⟩ => ⟨b, hb, (hiff b).mpr hm⟩⟩

def dBillboard : Billboard := ⟨2, "Digital One", BillboardType.digital, 800, some 4⟩

def dBookingSlot1 : Booking :=
  ⟨31, "BK-2024-0002", 4, none, 2, some 1, 100, 120, none, 16800, "created", none, none⟩

def dBookingSlot2 : Booking :=
  ⟨32, "BK-2024-0003", 5, none, 2, some 2, 100, 120, none, 16800, "active", none, none⟩

def dBookingNoSlot : Booking :=
  ⟨33, "BK-2024-0004", 6, none, 2, none, 100, 120, none, 16800, "created", none, none⟩

def dStore : Store := ⟨[dBillboard], [dBookingSlot1, dBookingSlot2, dBookingNoSlot], [], []⟩

def dQuerySlot1 : AvailabilityQuery := ⟨2, 110, 130, some 1, none⟩

def dQueryAll : AvailabilityQuery := ⟨2, 110, 130, none, none⟩

theorem checkAvailability_digital_slot_scope_witness :
    ∃ r, checkAvailability dStore dQuerySlot1 = Except.ok r ∧
      (∀ k, dQuerySlot1.slotNumber = some k →
        (∀ b, b ∈ r.conflicts ↔
            (b ∈ dStore.bookings ∧ overlapBase dQuerySlot1 b ∧ b.slotNumber = some k)) ∧
        (r.available = false ↔
            ∃ b ∈ dStore.bookings, overlapBase dQuerySlot1 b ∧ b.slotNumber = some k)) ∧
      (dQuerySlot1.slotNumber = none →
        (∀ b, b ∈ r.conflicts ↔ (b ∈ dStore.bookings ∧ overlapBase dQuerySlot1 b)) ∧
        (r.available = false ↔ ∃ b ∈ dStore.bookings, overlapBase dQuerySlot1 b)) :=
  checkAvailability_digital_slot_scope dStore dQuerySlot1 dBillboard rfl rfl

/-- Claim C9: `checkAvailability` applies no filter on booking status:
a stored, non-excluded, overlapping booking (matching the slot
condition) whose status is any of the six lifecycle statuses is listed
in the conflicts and makes the result unavailable. -/
theorem checkAvailability_ignores_status (st : Store) (q : AvailabilityQuery)
    (bb : Billboard) (b : Booking)
    (hfind : st.billboards.find? (fun x => x.id == q.billboardId) = some bb)
    (hb : b ∈ st.bookings) (hstatus : b.status ∈ validStatuses)
    (hbase : overlapBase q b)
    (hslot : slotCondition bb.type q.slotNumber b = true) :
    ∃ r, checkAvailability st q = Except.ok r ∧ b ∈ r.conflicts ∧ r.available = false := by
  obtain ⟨r, hok, hmem, hav⟩ := checkAvailability_characterization st q bb hfind
  have hm : availMatches bb q b = true := (availMatches_iff bb q b).mpr ⟨hbase, hslot⟩
  exact ⟨r, hok, (hmem b).mpr ⟨hb, hm⟩, hav.mpr ⟨b, hb, hm⟩⟩

theorem checkAvailability_ignores_status_witness :
    ∃ r, checkAvailability dStore dQueryAll = Except.ok r ∧
      dBookingSlot2 ∈ r.conflicts ∧ r.available = false :=
  checkAvailability_ignores_status dStore dQueryAll dBillboard dBookingSlot2
    rfl (by decide) (by decide) (by decide) rfl

def cxBillboard : Billboard := ⟨7, "Gate Hoarding", BillboardType.static, 100, none⟩

/-- An overlapping booking whose status column holds `cancelled` (the
column is an unconstrained varchar; `updateBooking` copies any status
string from its dto, and the dashboard's occupancy query even filters
`status NOT IN ('cancelled')`, so such rows are representable). -/
def cxCancelled : Booking :=
  ⟨71, "BK-2024-0042", 9, none, 7, none, 200, 210, none, 1100, "cancelled", none, none⟩

def cxStore : Store := ⟨[cxBillboard], [cxCancelled], [], []⟩

def cxQuery : AvailabilityQuery := ⟨7, 205, 215, none, none⟩

/-- Claim C4, counterexample: a booking whose status is `cancelled` and
which overlaps the candidate range IS returned in `checkAvailability`'s
conflicts and makes the result unavailable — the engine has no status
filter, contradicting the claim that cancelled bookings never count. -/
theorem checkAvailability_lists_cancelled_cx :
    cxCancelled.status = "cancelled" ∧
    checkAvailability cxStore cxQuery =
      Except.ok ⟨false, [cxCancelled]⟩ := by
  constructor
  · rfl
  · rfl

/-- Claim C4, amended: `checkAvailability` applies no status filter, so
a stored overlapping non-excluded booking with status `cancelled`
(matching the slot condition) is listed in the conflicts and makes the
result unavailable, exactly like a booking in any other status. -/
theorem checkAvailability_counts_cancelled (st : Store) (q : AvailabilityQuery)
    (bb : Billboard) (b : Booking)
    (hfind : st.billboards.find? (fun x => x.id == q.billboardId) = some bb)
    (hb : b ∈ st.bookings) (hstatus : b.status = "cancelled")
    (hbase : overlapBase q b)
    (hslot : slotCondition bb.type q.slotNumber b = true) :
    ∃ r, checkAvailability st q = Except.ok r ∧ b ∈ r.conflicts ∧ r.available = false := by
  obtain ⟨r, hok, hmem, hav⟩ := checkAvailability_characterization st q bb hfind
  have hm : availMatches bb q b = true := (availMatches_iff bb q b).mpr ⟨hbase, hslot⟩
  exact ⟨r, hok, (hmem b).mpr ⟨hb, hm⟩, hav.mpr ⟨b, hb, hm⟩⟩

theorem checkAvailability_counts_cancelled_witness :
    ∃ r, checkAvailability cxStore cxQuery = Except.ok r ∧
      cxCancelled ∈ r.conflicts ∧ r.available = false :=
  checkAvailability_counts_cancelled cxStore cxQuery cxBillboard cxCancelled
    rfl (by decide) rfl (by decide) rfl

/-! Booking lifecycle manager. -/

/-- Embedding of `getBookingById`, restricted to the booking row itself (the source
additionally left-joins customer, billboard and campaign data). -/
def findBooking (st : Store) (id : Nat) : Option Booking :=
  st.bookings.find? (fun b => b.id == id)

/-- Inclusive day count `Math.ceil((end - start) / day) + 1` of the
source, on exact day indices. -/
def inclusiveDays (s e : Nat) : ℤ := (e : ℤ) - (s : ℤ) + 1

/-- JavaScript `x || null` on an optional number: `undefined`, `null`
and the falsy number `0` all collapse to `null`. -/
def jsOrNull (o : Option Nat) : Option Nat :=
  match o with
  | some 0 => none
  | x => x

/-- The `CreateBookingDto` of booking.service.ts. -/
structure CreateBookingDto where
  customerId : Nat
  billboardId : Nat
  campaignId : Option Nat
  slotNumber : Option Nat
  startDate : Nat
  endDate : Nat
  notionalValue : Option ℚ
  creativeRef : Option String
  notes : Option String
deriving DecidableEq

/-- Embedding of `BookingService.createBooking` (landlord.service.ts lines 820-874):
checks availability (propagating its not-found error and failing with
the conflicting reference codes when unavailable), computes the
notional value as `ratePerDay * inclusiveDays` when the dto supplies
none, and inserts the row with status `created`. The generated id and
reference code come from the external sequence generator, modelled as
parameters. The call returns `getBookingById` of the new row. -/
def createBooking (st : Store) (dto : CreateBookingDto) (freshId : Nat)
    (refCode : String) : Except ServiceError (Option Booking) × Store :=
  match checkAvailability st
      ⟨dto.billboardId, dto.startDate, dto.endDate, dto.slotNumber, none⟩ with
  | Except.error e => (Except.error e, st)
  | Except.ok r =>
    if r.available then
      let notionalValue : ℚ :=
        match dto.notionalValue with
        | some v => v
        | none =>
          match st.billboards.find? (fun bb => bb.id == dto.billboardId) with
          | some bb => bb.ratePerDay * (inclusiveDays dto.startDate dto.endDate : ℚ)
          | none => 0
      let b : Booking :=
        ⟨freshId, refCode, dto.customerId, dto.campaignId, dto.billboardId,
          jsOrNull dto.slotNumber, dto.startDate, dto.endDate, none,
          notionalValue, "created", dto.creativeRef, dto.notes⟩
      let st' : Store := ⟨st.billboards, st.bookings ++ [b], st.campaigns, st.purchaseOrders⟩
      (Except.ok (findBooking st' freshId), st')
    else
      (Except.error (ServiceError.bookingConflict
        (r.conflicts.map Booking.referenceCode)), st)

/-- The `UpdateBookingDto` of booking.service.ts: an outer `none` is an
absent (`undefined`) field; for the nullable fields the inner option is
the stored value (`some none` is an explicit `null`). -/
structure UpdateBookingDto where
  customerId : Option Nat
  billboardId : Option Nat
  campaignId : Option (Option Nat)
  slotNumber : Option (Option Nat)
  startDate : Option Nat
  endDate : Option Nat
  notionalValue : Option ℚ
  status : Option String
  creativeRef : Option String
  notes : Option String
deriving DecidableEq

/-- Statuses rejected by `updateBooking` ("finalized"). -/
def nonEditableStatuses : List String := ["completed", "po_generated", "invoiced"]

/-- Field-by-field partial update (`if (data.x !== undefined)
updateData.x = data.x`). -/
def applyBookingUpdate (dto : UpdateBookingDto) (b : Booking) : Booking :=
  { b with
    customerId := dto.customerId.getD b.customerId
    billboardId := dto.billboardId.getD b.billboardId
    campaignId := dto.campaignId.getD b.campaignId
    slotNumber := dto.slotNumber.getD b.slotNumber
    startDate := dto.startDate.getD b.startDate
    endDate := dto.endDate.getD b.endDate
    notionalValue := dto.notionalValue.getD b.notionalValue
    status := dto.status.getD b.status
    creativeRef :=
      match dto.creativeRef with
      | some s => some s
      | none => b.creativeRef
    notes :=
      match dto.notes with
      | some s => some s
      | none => b.notes }

/-- Embedding of `BookingService.updateBooking` (landlord.service.ts lines 876-926):
not-found check, finalized-status check, then — only when dates,
billboard or slot are touched — an availability re-check excluding the
booking's own id, then the partial update. -/
def updateBooking (st : Store) (id : Nat) (dto : UpdateBookingDto) :
    Except ServiceError (Option Booking) × Store :=
  match findBooking st id with
  | none => (Except.error ServiceError.bookingNotFound, st)
  | some existing =>
    if nonEditableStatuses.contains existing.status then
      (Except.error (ServiceError.bookingFinalized existing.status), st)
    else
      let st' : Store :=
        ⟨st.billboards,
          st.bookings.map (fun b => if b.id == id then applyBookingUpdate dto b else b),
          st.campaigns, st.purchaseOrders⟩
      if dto.startDate.isSome || dto.endDate.isSome ||
          dto.billboardId.isSome || dto.slotNumber.isSome then
        match checkAvailability st
            ⟨dto.billboardId.getD existing.billboardId,
              dto.startDate.getD existing.startDate,
              dto.endDate.getD existing.endDate,
              (match dto.slotNumber with
               | some s => s
               | none => existing.slotNumber),
              some id⟩ with
        | Except.error e => (Except.error e, st)
        | Except.ok r =>
          if r.available then (Except.ok (findBooking st' id), st')
          else
            (Except.error (ServiceError.bookingConflict
              (r.conflicts.map Booking.referenceCode)), st)
      else
        (Except.ok (findBooking st' id), st')

/-- Embedding of `BookingService.updateBookingStatus` (landlord.service.ts lines
1007-1024): validates the status against the six enumerated values and
updates the row (no transition-graph enforcement). -/
def updateBookingStatus (st : Store) (id : Nat) (status : String) :
    Except ServiceError (Option Booking) × Store :=
  if validStatuses.contains status then
    let st' : Store :=
      ⟨st.billboards,
        st.bookings.map (fun b => if b.id == id then { b with status := status } else b),
        st.campaigns, st.purchaseOrders⟩
    (Except.ok (findBooking st' id), st')
  else
    (Except.error (ServiceError.invalidStatus status), st)

/-- Statuses from which `shortCloseBooking` is allowed. -/
def shortCloseStatuses : List String := ["created", "confirmed", "active"]

/-- Embedding of `BookingService.shortCloseBooking` (landlord.service.ts lines
1026-1066): status guard, `actualEndDate` strictly before the original
end date and not before the start date, then sets `actualEndDate`,
forces status `completed` and appends the reason to the notes (an
empty notes string is falsy in the source's conditional). -/
def shortCloseBooking (st : Store) (id : Nat) (actualEnd : Nat) (reason : String) :
    Except ServiceError (Option Booking) × Store :=
  match findBooking st id with
  | none => (Except.error ServiceError.bookingNotFound, st)
  | some booking =>
    if shortCloseStatuses.contains booking.status then
      if booking.endDate ≤ actualEnd then
        (Except.error ServiceError.shortCloseAfterEnd, st)
      else if actualEnd < booking.startDate then
        (Except.error ServiceError.shortCloseBeforeStart, st)
      else
        let newNotes : String :=
          match booking.notes with
          | some n =>
            if n == "" then "Short Closed: " ++ reason
            else n ++ "\n\nShort Closed: " ++ reason
          | none => "Short Closed: " ++ reason
        let st' : Store :=
          ⟨st.billboards,
            st.bookings.map (fun b =>
              if b.id == id then
                { b with actualEndDate := some actualEnd, status := "completed",
                         notes := some newNotes }
              else b),
            st.campaigns, st.purchaseOrders⟩
        (Except.ok (findBooking st' id), st')
    else
      (Except.error (ServiceError.shortCloseInvalidStatus booking.status), st)

/-- Claim C5: `updateBooking` on a booking whose status is completed,
po_generated or invoiced fails with the finalized-status domain error
for every payload, leaving the store (in particular the booking row)
unchanged. -/
theorem updateBooking_rejects_finalized (st : Store) (id : Nat)
    (dto : UpdateBookingDto) (b : Booking)
    (hfind : findBooking st id = some b)
    (hstatus : b.status ∈ nonEditableStatuses) :
    updateBooking st id dto =
      (Except.error (ServiceError.bookingFinalized b.status), st) := by
  have hc : nonEditableStatuses.contains b.status = true :=
    List.elem_eq_true_of_mem hstatus
  simp only [updateBooking, hfind, hc, if_true]

def finalStore : Store :=
  ⟨[wBillboardS],
    [⟨41, "BK-2024-0005", 3, none, 1, none, 100, 110, none, 5500, "invoiced", none, none⟩],
    [], []⟩

def emptyUpdateDto : UpdateBookingDto :=
  ⟨none, none, none, none, none, none, none, none, none, none⟩

theorem updateBooking_rejects_finalized_witness :
    updateBooking finalStore 41 emptyUpdateDto =
      (Except.error (ServiceError.bookingFinalized "invoiced"), finalStore) :=
  updateBooking_rejects_finalized finalStore 41 emptyUpdateDto
    ⟨41, "BK-2024-0005", 3, none, 1, none, 100, 110, none, 5500, "invoiced", none, none⟩
    rfl (by decide)

/-- Claim C6: `shortCloseBooking` fails unless the booking's status is
created, confirmed or active; it fails whenever the actual end date is
on or after the original end date (in particular when they are equal);
it fails whenever the actual end date is before the start date; and
every such failing call leaves the store unchanged. -/
theorem shortCloseBooking_guards (st : Store) (id : Nat) (actualEnd : Nat)
    (reason : String) (b : Booking)
    (hfind : findBooking st id = some b) :
    (b.status ∉ shortCloseStatuses →
      shortCloseBooking st id actualEnd reason =
        (Except.error (ServiceError.shortCloseInvalidStatus b.status), st)) ∧
    (b.endDate ≤ actualEnd →
      ∃ e, shortCloseBooking st id actualEnd reason = (Except.error e, st)) ∧
    (actualEnd < b.startDate →
      ∃ e, shortCloseBooking st id actualEnd reason = (Except.error e, st)) := by
  refine ⟨?_, ?_, ?_⟩
  · intro hns
    have hc : shortCloseStatuses.contains b.status = false :=
      Bool.eq_false_iff.mpr (fun hcc => hns (List.mem_of_elem_eq_true hcc))
    simp only [shortCloseBooking, hfind, hc, Bool.false_eq_true, if_false]
  · intro hle
    by_cases hc : shortCloseStatuses.contains b.status = true
    · refine ⟨ServiceError.shortCloseAfterEnd, ?_⟩
      simp only [shortCloseBooking, hfind, hc, if_true]
      rw [if_pos hle]
    · refine ⟨ServiceError.shortCloseInvalidStatus b.status, ?_⟩
      simp only [shortCloseBooking, hfind, Bool.eq_false_iff.mpr hc,
        Bool.false_eq_true, if_false]
  · intro hlt
    by_cases hc : shortCloseStatuses.contains b.status = true
    · by_cases hle : b.endDate ≤ actualEnd
      · refine ⟨ServiceError.shortCloseAfterEnd, ?_⟩
        simp only [shortCloseBooking, hfind, hc, if_true]
        rw [if_pos hle]
      · refine ⟨ServiceError.shortCloseBeforeStart, ?_⟩
        simp only [shortCloseBooking, hfind, hc, if_true]
        rw [if_neg hle, if_pos hlt]
    · refine ⟨ServiceError.shortCloseInvalidStatus b.status, ?_⟩
      simp only [shortCloseBooking, hfind, Bool.eq_false_iff.mpr hc,
        Bool.false_eq_true, if_false]

def scBooking : Booking :=
  ⟨51, "BK-2024-0006", 3, none, 1, none, 100, 110, none, 5500, "active", none, none⟩

def scStore : Store := ⟨[wBillboardS], [scBooking], [], []⟩

/-- The emphasised boundary case: `actualEndDate` equal to the original
end date must fail and leave the store unchanged. -/
theorem shortCloseBooking_guards_witness :
    ∃ e, shortCloseBooking scStore 51 110 "ended early" = (Except.error e, scStore) :=
  (shortCloseBooking_guards scStore 51 110 "ended early" scBooking rfl).2.1
    (by decide)

/-! Purchase orders and the settlement calculator. -/

/-- Lemma: `find?` over a list mapped by an id-preserving function. -/
theorem find?_map_id_preserving (l : List Booking) (id : Nat) (f : Booking → Booking)
    (hf : ∀ b, (f b).id = b.id) :
    (l.map f).find? (fun b => b.id == id) = (l.find? (fun b => b.id == id)).map f := by
  induction l with
  | nil => rfl
  | cons x t ih =>
    simp only [List.map_cons, List.find?_cons, hf x]
    cases hx : (x.id == id)
    · simpa using ih
    · simp

/-- Booking statuses from which a purchase order may be generated. -/
def poStatuses : List String := ["completed", "confirmed", "active"]

/-- The `CreatePurchaseOrderDto` of purchase-order.service.ts. -/
structure CreatePurchaseOrderDto where
  bookingId : Nat
  actualStartDate : Nat
  actualEndDate : Nat
  actualValue : Option ℚ
  adjustmentNotes : Option String
deriving DecidableEq

/-- Embedding of `PurchaseOrderService.createPurchaseOrder` (landlord.service.ts
lines 1328-1379): not-found check, 1:1 duplicate-PO check, booking
status guard, pro-rata default for the actual value, insert, then
`updateBookingStatus(bookingId, 'po_generated')`. The generated id and
PO number come from the external sequence generator, modelled as
parameters; the call returns `getPurchaseOrderById` of the new row. -/
def createPurchaseOrder (st : Store) (dto : CreatePurchaseOrderDto) (freshId : Nat)
    (poNum : String) : Except ServiceError (Option PurchaseOrder) × Store :=
  match findBooking st dto.bookingId with
  | none => (Except.error ServiceError.bookingNotFound, st)
  | some booking =>
    match st.purchaseOrders.find? (fun po => po.bookingId == dto.bookingId) with
    | some _ => (Except.error ServiceError.poExists, st)
    | none =>
      if poStatuses.contains booking.status then
        let actualValue : ℚ :=
          match dto.actualValue with
          | some v => v
          | none =>
            match st.billboards.find? (fun bb => bb.id == booking.billboardId) with
            | some bb =>
              bb.ratePerDay * (inclusiveDays dto.actualStartDate dto.actualEndDate : ℚ)
            | none => 0
        let po : PurchaseOrder :=
          ⟨freshId, poNum, dto.bookingId, dto.actualStartDate, dto.actualEndDate,
            actualValue, dto.adjustmentNotes⟩
        let st1 : Store :=
          ⟨st.billboards, st.bookings, st.campaigns, st.purchaseOrders ++ [po]⟩
        let st2 := (updateBookingStatus st1 dto.bookingId "po_generated").2
        (Except.ok (st2.purchaseOrders.find? (fun p => p.id == freshId)), st2)
      else
        (Except.error (ServiceError.poInvalidBookingStatus booking.status), st)

/-- Rounding of an exact rational to an integer the way `toFixed`
renders an exactly-representable value: nearest, ties away from zero. -/
def roundHalfAwayFromZero (q : ℚ) : ℤ :=
  if q < 0 then -⌊-q + 1 / 2⌋ else ⌊q + 1 / 2⌋

/-- Rendering of a count of hundredths as a two-decimal string. -/
def renderHundredths (n : ℤ) : String :=
  (if n < 0 then "-" else "") ++ toString (n.natAbs / 100) ++ "." ++
    (if n.natAbs % 100 < 10 then "0" else "") ++ toString (n.natAbs % 100)

/-- Model of JavaScript `Number.prototype.toFixed(2)` on the exact
rational value of the rendered number. -/
def toFixed2 (q : ℚ) : String :=
  renderHundredths (roundHalfAwayFromZero (q * 100))

/-- Return shape of `calculateProRataValue`. -/
structure ProRataResult where
  originalDays : ℤ
  actualDays : ℤ
  ratePerDay : ℚ
  notionalValue : ℚ
  actualValue : ℚ
  adjustment : ℚ
  adjustmentPercentage : String
deriving DecidableEq

/-- Embedding of `PurchaseOrderService.calculateProRataValue` (landlord.service.ts
lines 1471-1499): resolves the booking and its billboard, computes the
inclusive day counts, `actualValue = rate * actualDays`,
`adjustment = actualValue - notionalValue`, and the adjustment
percentage rendered with `toFixed(2)`. -/
def calculateProRataValue (st : Store) (bookingId aStart aEnd : Nat) :
    Except ServiceError ProRataResult :=
  match findBooking st bookingId with
  | none => Except.error ServiceError.bookingNotFound
  | some booking =>
    match st.billboards.find? (fun x => x.id == booking.billboardId) with
    | none => Except.error ServiceError.billboardNotFound
    | some bb =>
      let originalDays := inclusiveDays booking.startDate booking.endDate
      let actualDays := inclusiveDays aStart aEnd
      let actualValue : ℚ := bb.ratePerDay * (actualDays : ℚ)
      let adjustment := actualValue - booking.notionalValue
      Except.ok
        ⟨originalDays, actualDays, bb.ratePerDay, booking.notionalValue, actualValue,
          adjustment, toFixed2 (adjustment / booking.notionalValue * 100)⟩

/-- Claim C7: `createPurchaseOrder` fails with not-found when the
booking does not exist, with the duplicate error when a purchase order
already exists for that booking, and with the status error unless the
booking's status is completed, confirmed or active (each failure
leaving the store unchanged); on success the booking's status is set
to `po_generated`. -/
theorem createPurchaseOrder_spec (st : Store) (dto : CreatePurchaseOrderDto)
    (freshId : Nat) (poNum : String) :
    (findBooking st dto.bookingId = none →
      createPurchaseOrder st dto freshId poNum =
        (Except.error ServiceError.bookingNotFound, st)) ∧
    (∀ b, findBooking st dto.bookingId = some b →
      ((∃ po, st.purchaseOrders.find? (fun p => p.bookingId == dto.bookingId) = some po) →
        createPurchaseOrder st dto freshId poNum =
          (Except.error ServiceError.poExists, st)) ∧
      (st.purchaseOrders.find? (fun p => p.bookingId == dto.bookingId) = none →
        (b.status ∉ poStatuses →
          createPurchaseOrder st dto freshId poNum =
            (Except.error (ServiceError.poInvalidBookingStatus b.status), st)) ∧
        (b.status ∈ poStatuses →
          ∃ res st2, createPurchaseOrder st dto freshId poNum = (Except.ok res, st2) ∧
            findBooking st2 dto.bookingId =
              some { b with status := "po_generated" }))) := by
  refine ⟨?_, ?_⟩
  · intro hnone
    simp only [createPurchaseOrder, hnone]
  · intro b hfind
    refine ⟨?_, ?_⟩
    · rintro ⟨po, hpo⟩
      simp only [createPurchaseOrder, hfind, hpo]
    · intro hpo
      refine ⟨?_, ?_⟩
      · intro hns
        have hc : poStatuses.contains b.status = false :=
          Bool.eq_false_iff.mpr (fun hcc => hns (List.mem_of_elem_eq_true hcc))
        simp only [createPurchaseOrder, hfind, hpo, hc, Bool.false_eq_true, if_false]
      · intro hs
        have hc : poStatuses.contains b.status = true := List.elem_eq_true_of_mem hs
        have hvalid : validStatuses.contains "po_generated" = true := rfl
        have hfind' : st.bookings.find? (fun x => x.id == dto.bookingId) = some b := hfind
        have hbeq := List.find?_some hfind'
        simp only [createPurchaseOrder, hfind, hpo, hc, if_true]
        refine ⟨_, _, rfl, ?_⟩
        simp only [updateBookingStatus, hvalid, if_true, findBooking]
        rw [find?_map_id_preserving st.bookings dto.bookingId _
          (fun x => by by_cases h : (x.id == dto.bookingId) = true <;> simp [h])]
        unfold findBooking at hfind
        rw [hfind]
        simp [hbeq]
        intro h
        exact absurd (by simpa using hbeq) h

def poBillboard : Billboard := ⟨3, "Main Road", BillboardType.static, 1000, none⟩

/-- A completed booking over ten inclusive days (day 0 to day 9) at
rate 1000 per day, with notional value 10000. -/
def poBooking : Booking :=
  ⟨61, "BK-2024-0010", 8, none, 3, none, 0, 9, none, 10000, "completed", none, none⟩

def poStore : Store := ⟨[poBillboard], [poBooking], [], []⟩

def poDto : CreatePurchaseOrderDto := ⟨61, 0, 6, none, none⟩

theorem createPurchaseOrder_spec_witness :
    ∃ res st2, createPurchaseOrder poStore poDto 90 "PO-2024-0001" = (Except.ok res, st2) ∧
      findBooking st2 61 = some { poBooking with status := "po_generated" } :=
  (((createPurchaseOrder_spec poStore poDto 90 "PO-2024-0001").2 poBooking rfl).2
    rfl).2 (by decide)

/-- Claim C8: `calculateProRataValue` returns
`actualValue = ratePerDay * actualDays`,
`adjustment = actualValue - notionalValue` and
`adjustmentPercentage = (adjustment / notionalValue) * 100` rendered
with two decimals, where `actualDays` is the inclusive day count
`actualEnd - actualStart + 1`; in particular, for a booking of
notional value 10000 over 10 inclusive days and an actual period of 7
inclusive days at the same rate it returns `actualValue = 7000`,
`adjustment = -3000` and `adjustmentPercentage = "-30.00"`. -/
theorem calculateProRataValue_spec :
    (∀ (st : Store) (bookingId aStart aEnd : Nat) (b : Booking) (bb : Billboard)
        (r : ProRataResult),
      findBooking st bookingId = some b →
      st.billboards.find? (fun x => x.id == b.billboardId) = some bb →
      b.notionalValue ≠ 0 →
      calculateProRataValue st bookingId aStart aEnd = Except.ok r →
      r.actualDays = (aEnd : ℤ) - (aStart : ℤ) + 1 ∧
      r.actualValue = bb.ratePerDay * (((aEnd : ℤ) - (aStart : ℤ) + 1 : ℤ) : ℚ) ∧
      r.adjustment = r.actualValue - b.notionalValue ∧
      r.adjustmentPercentage = toFixed2 (r.adjustment / b.notionalValue * 100)) ∧
    calculateProRataValue poStore 61 0 6 =
      Except.ok ⟨10, 7, 1000, 10000, 7000, -3000, "-30.00"⟩ := by
  constructor
  · intro st bookingId aStart aEnd b bb r hfind hbb hnz hcalc
    simp only [calculateProRataValue, hfind, hbb, Except.ok.injEq] at hcalc
    subst hcalc
    refine ⟨rfl, rfl, ?_, ?_⟩
    · simp [inclusiveDays]
    · simp [inclusiveDays]
  · have hfb : findBooking poStore 61 = some poBooking := rfl
    have hbb : List.find? (fun x => x.id == (3 : Nat)) poStore.billboards =
        some poBillboard := rfl
    have h30 : toFixed2 (-30 : ℚ) = "-30.00" := by
      unfold toFixed2 roundHalfAwayFromZero
      have h1 : (-30 : ℚ) * 100 = -3000 := by norm_num
      rw [h1, if_pos (by norm_num : (-3000 : ℚ) < 0)]
      have h2 : -(-3000 : ℚ) + 1 / 2 = 6001 / 2 := by norm_num
      rw [h2]
      have h3 : (⌊(6001 / 2 : ℚ)⌋ : ℤ) = 3000 := by
        rw [Int.floor_eq_iff]
        norm_num
      rw [h3]
      decide
    simp only [calculateProRataValue, hfb, poBooking]
    rw [hbb]
    norm_num [inclusiveDays, poBillboard, h30]

def proRataExpected : ProRataResult := ⟨10, 7, 1000, 10000, 7000, -3000, "-30.00"⟩

theorem calculateProRataValue_spec_witness :
    proRataExpected.actualDays = ((6 : Nat) : ℤ) - ((0 : Nat) : ℤ) + 1 ∧
    proRataExpected.actualValue =
      poBillboard.ratePerDay * ((((6 : Nat) : ℤ) - ((0 : Nat) : ℤ) + 1 : ℤ) : ℚ) ∧
    proRataExpected.adjustment = proRataExpected.actualValue - poBooking.notionalValue ∧
    proRataExpected.adjustmentPercentage =
      toFixed2 (proRataExpected.adjustment / poBooking.notionalValue * 100) :=
  calculateProRataValue_spec.1 poStore 61 0 6 poBooking poBillboard proRataExpected
    rfl rfl (by norm_num [poBooking]) calculateProRataValue_spec.2

/-! Campaign orchestrator. -/

/-- One entry of `CreateCampaignDto.billboards`. -/
structure BillboardSelection where
  billboardId : Nat
  slotNumber : Option Nat
deriving DecidableEq

/-- The `CreateCampaignDto` of campaign.service.ts. `startDate`/`endDate`
are declared required by the interface and modelled as always present
(the source's falsy-string check cannot fire on a day index). -/
structure CreateCampaignDto where
  name : String
  customerId : Nat
  description : Option String
  startDate : Nat
  endDate : Nat
  billboards : List BillboardSelection
deriving DecidableEq

/-- The availability query `createCampaign` issues for one selection:
the full campaign date range with the selection's optional slot. -/
def selQuery (dto : CreateCampaignDto) (sel : BillboardSelection) : AvailabilityQuery :=
  ⟨sel.billboardId, dto.startDate, dto.endDate, sel.slotNumber, none⟩

def campaignBillboardIds (dto : CreateCampaignDto) : List Nat :=
  dto.billboards.map BillboardSelection.billboardId

/-- The batch lookup `inArray(billboards.id, billboardIds)`. -/
def campaignBillboardDetails (st : Store) (dto : CreateCampaignDto) : List Billboard :=
  st.billboards.filter (fun bb => (campaignBillboardIds dto).contains bb.id)

/-- The sequential availability loop of `createCampaign`: on the first
unavailable selection it throws, naming the billboard (looked up in the
batch result) and the conflicting reference codes; a not-found error
from the engine propagates. -/
def scanAvailability (st : Store) (details : List Billboard) (dto : CreateCampaignDto) :
    List BillboardSelection → Except ServiceError Unit
  | [] => Except.ok ()
  | sel :: rest =>
    match checkAvailability st (selQuery dto sel) with
    | Except.error e => Except.error e
    | Except.ok r =>
      if r.available then scanAvailability st details dto rest
      else
        Except.error (ServiceError.campaignUnavailable
          ((details.find? (fun bb => bb.id == sel.billboardId)).map Billboard.name)
          (r.conflicts.map Booking.referenceCode))

/-- The booking-creation loop of `createCampaign`: one booking per
selection (selections whose billboard is missing from the batch are
skipped, mirroring the `continue`), notional value
`ratePerDay * inclusiveDays`, slot stored as `slotNumber || null`,
status `created`; also accumulates the total value. `i` indexes the
external sequence generator calls. -/
def createCampaignBookings (details : List Billboard) (dto : CreateCampaignDto)
    (campaignId : Nat) (bidf : Nat → Nat) (bref : Nat → String) :
    Nat → List BillboardSelection → List Booking × ℚ
  | _, [] => ([], 0)
  | i, sel :: rest =>
    match details.find? (fun bb => bb.id == sel.billboardId) with
    | none => createCampaignBookings details dto campaignId bidf bref i rest
    | some bb =>
      let nv : ℚ := bb.ratePerDay * (inclusiveDays dto.startDate dto.endDate : ℚ)
      let prev := createCampaignBookings details dto campaignId bidf bref (i + 1) rest
      (⟨bidf i, bref i, dto.customerId, some campaignId, sel.billboardId,
        jsOrNull sel.slotNumber, dto.startDate, dto.endDate, none, nv, "created",
        none, none⟩ :: prev.1, nv + prev.2)

/-- Embedding of `CampaignService.createCampaign` (campaign.service.ts): validates
the selection list, resolves all billboards in one batch (failing when
the counts differ), runs the sequential availability loop, then — only
after every check passed — inserts the campaign row, one booking per
selection, and finally writes the accumulated total value. Fresh ids
and reference codes come from the external sequence generator,
modelled as parameters; the call returns `getCampaignById`. -/
def createCampaign (st : Store) (dto : CreateCampaignDto) (cid : Nat) (cref : String)
    (bidf : Nat → Nat) (bref : Nat → String) :
    Except ServiceError (Option Campaign) × Store :=
  if dto.billboards.length = 0 then
    (Except.error ServiceError.campaignNoBillboards, st)
  else if (campaignBillboardDetails st dto).length ≠ (campaignBillboardIds dto).length then
    (Except.error ServiceError.campaignBillboardsMissing, st)
  else
    match scanAvailability st (campaignBillboardDetails st dto) dto dto.billboards with
    | Except.error e => (Except.error e, st)
    | Except.ok _ =>
      let campaign : Campaign :=
        ⟨cid, cref, dto.name, dto.customerId, dto.description, 0,
          some dto.startDate, some dto.endDate⟩
      let built :=
        createCampaignBookings (campaignBillboardDetails st dto) dto cid bidf bref 0
          dto.billboards
      let st2 : Store :=
        ⟨st.billboards, st.bookings ++ built.1, st.campaigns ++ [campaign],
          st.purchaseOrders⟩
      let st3 : Store :=
        ⟨st2.billboards, st2.bookings,
          st2.campaigns.map (fun c => if c.id == cid then { c with totalValue := built.2 } else c),
          st2.purchaseOrders⟩
      (Except.ok (st3.campaigns.find? (fun c => c.id == cid)), st3)

/-- When every selection's billboard resolves and some selection is
unavailable, the availability loop stops at the first such selection
with the campaign-conflict error. -/
theorem scanAvailability_error_of_conflict (st : Store) (details : List Billboard)
    (dto : CreateCampaignDto) (sels : List BillboardSelection)
    (hfound : ∀ sel ∈ sels, ∃ bb,
      st.billboards.find? (fun x => x.id == sel.billboardId) = some bb)
    (hconf : ∃ sel ∈ sels, ∃ r,
      checkAvailability st (selQuery dto sel) = Except.ok r ∧ r.available = false) :
    ∃ sel ∈ sels, ∃ r,
      checkAvailability st (selQuery dto sel) = Except.ok r ∧ r.available = false ∧
      scanAvailability st details dto sels =
        Except.error (ServiceError.campaignUnavailable
          ((details.find? (fun bb => bb.id == sel.billboardId)).map Billboard.name)
          (r.conflicts.map Booking.referenceCode)) := by
  induction sels with
  | nil =>
    obtain ⟨sel, hs, _⟩ := hconf
    exact absurd hs (List.not_mem_nil sel)
  | cons sel rest ih =>
    obtain ⟨bb, hbb⟩ := hfound sel (List.mem_cons_self sel rest)
    obtain ⟨r0, hr0, -, -⟩ :=
      checkAvailability_characterization st (selQuery dto sel) bb hbb
    by_cases hav : r0.available = true
    · have hconf' : ∃ s ∈ rest, ∃ r,
          checkAvailability st (selQuery dto s) = Except.ok r ∧ r.available = false := by
        obtain ⟨s, hs, r, hr, hfalse⟩ := hconf
        rcases List.mem_cons.mp hs with heq | hmem
        · subst heq
          rw [hr0] at hr
          injection hr with h
          subst h
          rw [hfalse] at hav
          exact absurd hav (by simp)
        · exact ⟨s, hmem, r, hr, hfalse⟩
      obtain ⟨s, hs, r, hr, hfalse, hscan⟩ :=
        ih (fun s hs => hfound s (List.mem_cons_of_mem _ hs)) hconf'
      refine ⟨s, List.mem_cons_of_mem _ hs, r, hr, hfalse, ?_⟩
      simp only [scanAvailability, hr0, hav, if_true]
      exact hscan
    · have hfalse : r0.available = false := Bool.eq_false_iff.mpr hav
      refine ⟨sel, List.mem_cons_self sel rest, r0, hr0, hfalse, ?_⟩
      simp only [scanAvailability, hr0, hfalse, Bool.false_eq_true, if_false]

/-- Claim C3: in campaign create, availability is checked for every
requested (billboard, slot) pair over the full campaign range before
any write: when every selection's billboard resolves but some pair is
unavailable, the call fails with the error naming the offending
billboard and the conflicting bookings' reference codes, and the
returned store is exactly the input store — no campaign row and no
booking row has been persisted. -/
theorem createCampaign_conflict_no_writes (st : Store) (dto : CreateCampaignDto)
    (cid : Nat) (cref : String) (bidf : Nat → Nat) (bref : Nat → String)
    (hne : dto.billboards ≠ [])
    (hlen : (campaignBillboardDetails st dto).length = (campaignBillboardIds dto).length)
    (hfound : ∀ sel ∈ dto.billboards, ∃ bb,
      st.billboards.find? (fun x => x.id == sel.billboardId) = some bb)
    (hconf : ∃ sel ∈ dto.billboards, ∃ r,
      checkAvailability st (selQuery dto sel) = Except.ok r ∧ r.available = false) :
    ∃ sel ∈ dto.billboards, ∃ r,
      checkAvailability st (selQuery dto sel) = Except.ok r ∧ r.available = false ∧
      createCampaign st dto cid cref bidf bref =
        (Except.error (ServiceError.campaignUnavailable
          (((campaignBillboardDetails st dto).find?
            (fun bb => bb.id == sel.billboardId)).map Billboard.name)
          (r.conflicts.map Booking.referenceCode)), st) := by
  obtain ⟨sel, hs, r, hr, hfalse, hscan⟩ :=
    scanAvailability_error_of_conflict st (campaignBillboardDetails st dto) dto
      dto.billboards hfound hconf
  refine ⟨sel, hs, r, hr, hfalse, ?_⟩
  have hlen0 : ¬dto.billboards.length = 0 := by
    intro h
    exact hne (List.length_eq_zero.mp h)
  unfold createCampaign
  rw [if_neg hlen0, if_neg (fun h => h hlen), hscan]

def cpBillboardFree : Billboard := ⟨4, "Free Board", BillboardType.static, 200, none⟩

def cpBillboardBusy : Billboard := ⟨5, "Busy Board", BillboardType.static, 300, none⟩

def cpExisting : Booking :=
  ⟨81, "BK-2024-0021", 12, none, 5, none, 300, 320, none, 6300, "confirmed", none, none⟩

def cpStore : Store := ⟨[cpBillboardFree, cpBillboardBusy], [cpExisting], [], []⟩

/-- A two-billboard campaign request whose second billboard has a date
conflict with `cpExisting`. -/
def cpDto : CreateCampaignDto :=
  ⟨"Summer Launch", 12, none, 310, 330, [⟨4, none⟩, ⟨5, none⟩]⟩

theorem createCampaign_conflict_no_writes_witness :
    ∃ sel ∈ cpDto.billboards, ∃ r,
      checkAvailability cpStore (selQuery cpDto sel) = Except.ok r ∧ r.available = false ∧
      createCampaign cpStore cpDto 100 "CP-2024-0001" (fun i => 200 + i)
          (fun _ => "BK-2024-0090") =
        (Except.error (ServiceError.campaignUnavailable
          (((campaignBillboardDetails cpStore cpDto).find?
            (fun bb => bb.id == sel.billboardId)).map Billboard.name)
          (r.conflicts.map Booking.referenceCode)), cpStore) :=
  createCampaign_conflict_no_writes cpStore cpDto 100 "CP-2024-0001" (fun i => 200 + i)
    (fun _ => "BK-2024-0090") (by decide) rfl
    (by
      intro sel hsel
      rcases List.mem_cons.mp hsel with h | h
      · subst h
        exact ⟨cpBillboardFree, rfl⟩
      · rcases List.mem_cons.mp h with h2 | h2
        · subst h2
          exact ⟨cpBillboardBusy, rfl⟩
        · exact absurd h2 (List.not_mem_nil sel))
    ⟨⟨5, none⟩, by decide, ⟨false, [cpExisting]⟩, rfl, rfl⟩

/-- Claim C10: in a slot-scoped availability check on a digital
billboard, stored bookings whose slot number is null are never
reported as conflicts; `createBooking` stores a null slot when the dto
selects none, and the campaign booking loop does the same for its
selections — so a booking made without a slot does not block any
individual slot's availability. -/
theorem nullSlot_never_blocks_slot_checks :
    (∀ (st : Store) (q : AvailabilityQuery) (bb : Billboard) (k : Nat),
      st.billboards.find? (fun x => x.id == q.billboardId) = some bb →
      bb.type = BillboardType.digital → q.slotNumber = some k →
      ∃ r, checkAvailability st q = Except.ok r ∧
        ∀ b ∈ st.bookings, b.slotNumber = none → b ∉ r.conflicts) ∧
    (∀ (st : Store) (dto : CreateBookingDto) (freshId : Nat) (refCode : String)
        (ob : Option Booking) (st2 : Store),
      dto.slotNumber = none →
      createBooking st dto freshId refCode = (Except.ok ob, st2) →
      ∃ nb, st2.bookings = st.bookings ++ [nb] ∧ nb.slotNumber = none) ∧
    (∀ (details : List Billboard) (dto : CreateCampaignDto) (cid : Nat)
        (bidf : Nat → Nat) (bref : Nat → String) (sels : List BillboardSelection)
        (i : Nat),
      (∀ sel ∈ sels, sel.slotNumber = none) →
      ∀ b ∈ (createCampaignBookings details dto cid bidf bref i sels).1,
        b.slotNumber = none) := by
  refine ⟨?_, ?_, ?_⟩
  · intro st q bb k hfind htype hslot
    obtain ⟨r, hok, hmem, -⟩ := checkAvailability_characterization st q bb hfind
    refine ⟨r, hok, ?_⟩
    intro b hb hnone hcon
    have hm := ((hmem b).mp hcon).2
    rw [availMatches_iff] at hm
    have hsc := hm.2
    rw [hslot, slotCondition_digital_some bb k b htype, hnone] at hsc
    simp at hsc
  · intro st dto freshId refCode ob st2 hslot hcb
    unfold createBooking at hcb
    split at hcb
    · simp at hcb
    · split at hcb
      · simp only [Prod.mk.injEq] at hcb
        obtain ⟨-, hst⟩ := hcb
        subst hst
        refine ⟨_, rfl, ?_⟩
        show jsOrNull dto.slotNumber = none
        rw [hslot]
        rfl
      · simp at hcb
  · intro details dto cid bidf bref sels
    induction sels with
    | nil =>
      intro i hnone b hb
      simp only [createCampaignBookings] at hb
      exact absurd hb (List.not_mem_nil b)
    | cons sel rest ih =>
      intro i hnone b hb
      cases hf : details.find? (fun bb => bb.id == sel.billboardId) with
      | none =>
        simp only [createCampaignBookings, hf] at hb
        exact ih i (fun s hs => hnone s (List.mem_cons_of_mem _ hs)) b hb
      | some bb =>
        simp only [createCampaignBookings, hf] at hb
        rcases List.mem_cons.mp hb with heq | hmem
        · subst heq
          show jsOrNull sel.slotNumber = none
          rw [hnone sel (List.mem_cons_self sel rest)]
          rfl
        · exact ih (i + 1) (fun s hs => hnone s (List.mem_cons_of_mem _ hs)) b hmem

def cbDto : CreateBookingDto := ⟨4, 2, none, none, 200, 210, some 8800, none, none⟩

def cbNew : Booking :=
  ⟨99, "BK-2024-0099", 4, none, 2, none, 200, 210, none, 8800, "created", none, none⟩

def cbStore2 : Store :=
  ⟨[dBillboard], [dBookingSlot1, dBookingSlot2, dBookingNoSlot, cbNew], [], []⟩

theorem nullSlot_never_blocks_slot_checks_witness :
    (∃ r, checkAvailability dStore dQuerySlot1 = Except.ok r ∧
      ∀ b ∈ dStore.bookings, b.slotNumber = none → b ∉ r.conflicts) ∧
    (∃ nb, cbStore2.bookings = dStore.bookings ++ [nb] ∧ nb.slotNumber = none) ∧
    (∀ b ∈ (createCampaignBookings (campaignBillboardDetails cpStore cpDto) cpDto 100
        (fun i => 200 + i) (fun _ => "BK-2024-0090") 0 cpDto.billboards).1,
      b.slotNumber = none) :=
  ⟨nullSlot_never_blocks_slot_checks.1 dStore dQuerySlot1 dBillboard 1 rfl rfl rfl,
   nullSlot_never_blocks_slot_checks.2.1 dStore cbDto 99 "BK-2024-0099" (some cbNew)
     cbStore2 rfl rfl,
   nullSlot_never_blocks_slot_checks.2.2 (campaignBillboardDetails cpStore cpDto) cpDto
     100 (fun i => 200 + i) (fun _ => "BK-2024-0090") cpDto.billboards 0 (by decide)⟩

end BillboardOps
